import Mathlib

/-!
Verification of the LLM-provider gateway subsystem
(backend/app/adapters, backend/app/services/llm_service.py,
backend/app/api/endpoints/gateway.py, backend/app/api/endpoints/chat.py).

Strings are modelled by Lean `String`; Python `str.startswith` and the
`in` substring test are modelled over the underlying character lists.
Money amounts (USD) are modelled by `ℚ`; Python integers by `Nat`/`Int`.
Fallible code returns `Except HTTPException`.
-/

/-- Python `str.startswith` test, character-list level. -/
def charsStartWith : List Char → List Char → Bool
  | _, [] => true
  | [], _ :: _ => false
  | c :: cs, p :: ps => c == p && charsStartWith cs ps

/-- Python substring containment (`pat in s`), character-list level. -/
def charsContain : List Char → List Char → Bool
  | [], pat => pat.isEmpty
  | c :: cs, pat => charsStartWith (c :: cs) pat || charsContain cs pat

/-- Python `s.startswith(pre)`. -/
def pyStartsWith (s pre : String) : Bool :=
  charsStartWith s.data pre.data

/-- Python `pat in s` (substring containment). -/
def pyContains (s pat : String) : Bool :=
  charsContain s.data pat.data

/-- `app.adapters.base_adapter.ChatMessage` (role, content). -/
structure ChatMessage where
  role : String
  content : String
deriving DecidableEq, Repr

/-- Token usage dictionary produced by adapters. -/
structure Usage where
  prompt_tokens : Nat
  completion_tokens : Nat
  total_tokens : Nat
deriving DecidableEq, Repr

/-- `app.adapters.base_adapter.ChatCompletionResponse`.  The only
metadata the adapters produce is a small string-keyed map of numbers
(for instance the cost entry), modelled as an association list. -/
structure ChatCompletionResponse where
  content : String
  model : String
  usage : Option Usage
  finish_reason : Option String
  metadata : Option (List (String × ℚ))
deriving DecidableEq, Repr

/-- `app.models.api_key.APIKey` (the columns the gateway code reads). -/
structure APIKey where
  id : Int
  user_id : Int
  provider : String
  name : String
  encrypted_key : Option String
  is_active : Bool
deriving DecidableEq, Repr

/-- `app.models.conversation.Conversation` (the columns the service reads). -/
structure Conversation where
  id : Int
  user_id : Int
  api_key_id : Int
  model : String
  system_prompt : Option String
deriving DecidableEq, Repr

/-- `app.models.message.Message` as constructed by the service layer. -/
structure Message where
  conversation_id : Int
  role : String
  content : String
  prompt_tokens : Option Nat
  completion_tokens : Option Nat
  total_tokens : Option Nat
  cost : Option ℚ
  metadata : Option (List (String × ℚ))
deriving DecidableEq, Repr

/-- The database rows the gateway subsystem queries. -/
structure DB where
  api_keys : List APIKey
  conversations : List Conversation
deriving DecidableEq, Repr

/-- `fastapi.HTTPException` as raised by the embedded code. -/
structure HTTPException where
  status_code : Nat
  detail : String
deriving DecidableEq, Repr

/-- Provider resolution of `gateway.chat_completions` (gateway.py lines
79-85): prefix match on the requested model name. -/
def resolveProvider (model : String) : String :=
  if pyStartsWith model "gpt" then "openai"
  else if pyStartsWith model "claude" then "anthropic"
  else if pyStartsWith model "gemini" then "google"
  else "ollama"

/-- One choice of the gateway boundary response (gateway.py lines 159-166). -/
structure GatewayChoice where
  index : Nat
  message_role : String
  message_content : String
  finish_reason : String
deriving DecidableEq, Repr

/-- The gateway boundary response body (gateway.py lines 154-168). -/
structure GatewayChatCompletion where
  id : String
  object : String
  created : Nat
  model : String
  choices : List GatewayChoice
  usage : Option Usage
deriving DecidableEq, Repr

/-- The non-streaming response body built by `gateway.chat_completions`
(gateway.py lines 154-168) from the adapter response. -/
def chat_completions_response (model : String) (resp : ChatCompletionResponse) :
    GatewayChatCompletion :=
  { id := "chatcmpl-" ++ "gateway"
    object := "chat.completion"
    created := 0
    model := model
    choices := [{ index := 0
                  message_role := "assistant"
                  message_content := resp.content
                  finish_reason := "stop" }]
    usage := resp.usage }

lemma charsStartWith_comparable : ∀ (l p q : List Char),
    charsStartWith l p = true → charsStartWith l q = true →
    charsStartWith p q = true ∨ charsStartWith q p = true := by
  intro l
  induction l with
  | nil =>
    intro p q h1 h2
    cases p with
    | nil => right; simp [charsStartWith]
    | cons a as => simp [charsStartWith] at h1
  | cons c cs ih =>
    intro p q h1 h2
    cases p with
    | nil => right; simp [charsStartWith]
    | cons a as =>
      cases q with
      | nil => left; simp [charsStartWith]
      | cons b bs =>
        simp only [charsStartWith, Bool.and_eq_true, beq_iff_eq] at h1 h2
        rcases ih as bs h1.2 h2.2 with h | h
        · left
          have hab : a = b := h1.1 ▸ h2.1
          simp [charsStartWith, hab, h]
        · right
          have hba : b = a := h2.1 ▸ h1.1
          simp [charsStartWith, hba, h]

lemma pyStartsWith_excl {p q : String} (m : String)
    (hpq : charsStartWith p.data q.data = false)
    (hqp : charsStartWith q.data p.data = false)
    (h : pyStartsWith m p = true) : pyStartsWith m q = false := by
  cases hb : pyStartsWith m q with
  | false => rfl
  | true =>
    exfalso
    rcases charsStartWith_comparable m.data p.data q.data h hb with hc | hc
    · rw [hpq] at hc; exact Bool.false_ne_true hc
    · rw [hqp] at hc; exact Bool.false_ne_true hc

/-- C6: gateway provider resolution is a pure prefix match on the model
name: `gpt*` resolves to `openai`, `claude*` to `anthropic`, `gemini*`
to `google`, anything else to `ollama`; in particular
`gemini-1.5-flash` resolves to `google`, not `gemini`. -/
theorem c6_provider_resolution :
    (∀ m : String, pyStartsWith m "gpt" = true → resolveProvider m = "openai") ∧
    (∀ m : String, pyStartsWith m "claude" = true → resolveProvider m = "anthropic") ∧
    (∀ m : String, pyStartsWith m "gemini" = true → resolveProvider m = "google") ∧
    (∀ m : String, pyStartsWith m "gpt" = false → pyStartsWith m "claude" = false →
      pyStartsWith m "gemini" = false → resolveProvider m = "ollama") ∧
    resolveProvider "gemini-1.5-flash" = "google" := by
  refine ⟨?_, ?_, ?_, ?_, ?_⟩
  · intro m h
    simp [resolveProvider, h]
  · intro m h
    have hg : pyStartsWith m "gpt" = false :=
      pyStartsWith_excl m (by decide) (by decide) h
    simp [resolveProvider, hg, h]
  · intro m h
    have hg : pyStartsWith m "gpt" = false :=
      pyStartsWith_excl m (by decide) (by decide) h
    have hc : pyStartsWith m "claude" = false :=
      pyStartsWith_excl m (by decide) (by decide) h
    simp [resolveProvider, hg, hc, h]
  · intro m h1 h2 h3
    simp [resolveProvider, h1, h2, h3]
  · rfl

/-- C6 witness: concrete models of each shape resolve as claimed. -/
theorem c6_provider_resolution_witness :
    resolveProvider "gpt-4o" = "openai" ∧
    resolveProvider "claude-3-opus" = "anthropic" ∧
    resolveProvider "gemini-1.5-flash" = "google" ∧
    resolveProvider "llama3:70b" = "ollama" := by
  refine ⟨?_, ?_, ?_, ?_⟩
  · exact c6_provider_resolution.1 "gpt-4o" (by decide)
  · exact c6_provider_resolution.2.1 "claude-3-opus" (by decide)
  · exact c6_provider_resolution.2.2.1 "gemini-1.5-flash" (by decide)
  · exact c6_provider_resolution.2.2.2.1 "llama3:70b" (by decide) (by decide) (by decide)

/-- C10: the successful non-streaming gateway response always carries
`finish_reason = "stop"`, `id = "chatcmpl-gateway"` and `created = 0`,
regardless of the finish_reason and metadata the adapter reported;
only the adapter content and usage are passed through. -/
theorem c10_gateway_response_constants :
    ∀ (model : String) (resp : ChatCompletionResponse) (fr : Option String)
      (md : Option (List (String × ℚ))),
    (chat_completions_response model resp).id = "chatcmpl-gateway" ∧
    (chat_completions_response model resp).object = "chat.completion" ∧
    (chat_completions_response model resp).created = 0 ∧
    (chat_completions_response model resp).choices =
      [{ index := 0
         message_role := "assistant"
         message_content := resp.content
         finish_reason := "stop" }] ∧
    (chat_completions_response model resp).usage = resp.usage ∧
    chat_completions_response model resp =
      chat_completions_response model
        { resp with finish_reason := fr, metadata := md } := by
  intro model resp fr md
  exact ⟨rfl, rfl, rfl, rfl, rfl, rfl⟩

/-- `LLMService.get_api_key` (llm_service.py lines 19-51): look the key
up by id and owner; 404 when absent, 400 when inactive. -/
def get_api_key (db : DB) (api_key_id : Int) (user_id : Int) :
    Except HTTPException APIKey :=
  match db.api_keys.find? (fun k => k.id == api_key_id && k.user_id == user_id) with
  | none => .error { status_code := 404, detail := "API key not found" }
  | some k =>
      if k.is_active then .ok k
      else .error { status_code := 400, detail := "API key is not active" }

/-- Credential resolution of `LLMService.chat` (llm_service.py lines
117-132): conversation lookup, then `get_api_key`.  An `.ok` result is
exactly the path on which `AdapterFactory.create_adapter_from_db` is
reached and the adapter invoked. -/
def chat_credential (db : DB) (conversation_id : Int) (user_id : Int) :
    Except HTTPException APIKey :=
  match db.conversations.find? (fun c => c.id == conversation_id && c.user_id == user_id) with
  | none => .error { status_code := 404, detail := "Conversation not found" }
  | some conversation => get_api_key db conversation.api_key_id user_id

/-- Credential resolution of `LLMService.stream_chat` (llm_service.py
lines 225-240); the source duplicates the non-streaming prelude. -/
def stream_chat_credential (db : DB) (conversation_id : Int) (user_id : Int) :
    Except HTTPException APIKey :=
  match db.conversations.find? (fun c => c.id == conversation_id && c.user_id == user_id) with
  | none => .error { status_code := 404, detail := "Conversation not found" }
  | some conversation => get_api_key db conversation.api_key_id user_id

lemma get_api_key_ok_spec (db : DB) (kid uid : Int) (k : APIKey)
    (h : get_api_key db kid uid = .ok k) : k.user_id = uid ∧ k.is_active = true := by
  unfold get_api_key at h
  cases hf : db.api_keys.find? (fun k => k.id == kid && k.user_id == uid) with
  | none => rw [hf] at h; exact absurd h (by simp)
  | some k0 =>
    rw [hf] at h
    have hp := List.find?_some hf
    simp only [Bool.and_eq_true, beq_iff_eq] at hp
    by_cases ha : k0.is_active
    · simp only [ha, if_true] at h
      cases h
      exact ⟨hp.2, ha⟩
    · simp [ha] at h

lemma stream_credential_eq_chat (db : DB) (cid uid : Int) :
    stream_chat_credential db cid uid = chat_credential db cid uid := rfl

lemma credential_ok_spec (db : DB) (cid uid : Int) (k : APIKey)
    (h : chat_credential db cid uid = .ok k) :
    k.user_id = uid ∧ k.is_active = true := by
  unfold chat_credential at h
  cases hc : db.conversations.find? (fun c => c.id == cid && c.user_id == uid) with
  | none => rw [hc] at h; exact absurd h (by simp)
  | some conv =>
    rw [hc] at h
    exact get_api_key_ok_spec db conv.api_key_id uid k h

/-- C1: every chat or stream_chat call reaches the adapter only with a
credential owned by the requesting user and active; a missing credential
fails with 404 and an inactive one with 400, in both cases before any
adapter is constructed (the `.ok` constructor marks the adapter path). -/
theorem c1_credential_owner_and_active :
    (∀ (db : DB) (cid uid : Int) (k : APIKey),
      chat_credential db cid uid = .ok k → k.user_id = uid ∧ k.is_active = true) ∧
    (∀ (db : DB) (cid uid : Int) (k : APIKey),
      stream_chat_credential db cid uid = .ok k → k.user_id = uid ∧ k.is_active = true) ∧
    (∀ (db : DB) (cid uid : Int) (conv : Conversation),
      db.conversations.find? (fun c => c.id == cid && c.user_id == uid) = some conv →
      db.api_keys.find? (fun k => k.id == conv.api_key_id && k.user_id == uid) = none →
      chat_credential db cid uid =
        .error { status_code := 404, detail := "API key not found" } ∧
      stream_chat_credential db cid uid =
        .error { status_code := 404, detail := "API key not found" }) ∧
    (∀ (db : DB) (cid uid : Int) (conv : Conversation) (k : APIKey),
      db.conversations.find? (fun c => c.id == cid && c.user_id == uid) = some conv →
      db.api_keys.find? (fun k => k.id == conv.api_key_id && k.user_id == uid) = some k →
      k.is_active = false →
      chat_credential db cid uid =
        .error { status_code := 400, detail := "API key is not active" } ∧
      stream_chat_credential db cid uid =
        .error { status_code := 400, detail := "API key is not active" }) := by
  refine ⟨?_, ?_, ?_, ?_⟩
  · intro db cid uid k h
    exact credential_ok_spec db cid uid k h
  · intro db cid uid k h
    exact credential_ok_spec db cid uid k (stream_credential_eq_chat db cid uid ▸ h)
  · intro db cid uid conv hc hk
    constructor <;>
      simp only [chat_credential, stream_chat_credential, hc, get_api_key, hk]
  · intro db cid uid conv k hc hk hinact
    constructor <;>
      simp only [chat_credential, stream_chat_credential, hc, get_api_key, hk, hinact,
        Bool.false_eq_true, if_false]

/-- Concrete database rows used by witnesses. -/
def dbOwnedActive : DB :=
  { api_keys := [{ id := 1, user_id := 7, provider := "openai", name := "main",
                   encrypted_key := some "enc", is_active := true }]
    conversations := [{ id := 5, user_id := 7, api_key_id := 1,
                        model := "gpt-4o", system_prompt := none }] }

/-- Concrete database with an inactive key, used by witnesses. -/
def dbOwnedInactive : DB :=
  { api_keys := [{ id := 1, user_id := 7, provider := "openai", name := "main",
                   encrypted_key := some "enc", is_active := false }]
    conversations := [{ id := 5, user_id := 7, api_key_id := 1,
                        model := "gpt-4o", system_prompt := none }] }

/-- Concrete database whose conversation points at a key of another
user, used by witnesses. -/
def dbForeignKey : DB :=
  { api_keys := [{ id := 1, user_id := 9, provider := "openai", name := "main",
                   encrypted_key := some "enc", is_active := true }]
    conversations := [{ id := 5, user_id := 7, api_key_id := 1,
                        model := "gpt-4o", system_prompt := none }] }

/-- C1 witness: the three branches at concrete databases. -/
theorem c1_credential_owner_and_active_witness :
    ((⟨1, 7, "openai", "main", some "enc", true⟩ : APIKey).user_id = 7 ∧
      (⟨1, 7, "openai", "main", some "enc", true⟩ : APIKey).is_active = true) ∧
    chat_credential dbForeignKey 5 7 =
      .error { status_code := 404, detail := "API key not found" } ∧
    stream_chat_credential dbOwnedInactive 5 7 =
      .error { status_code := 400, detail := "API key is not active" } := by
  refine ⟨?_, ?_, ?_⟩
  · exact c1_credential_owner_and_active.1 dbOwnedActive 5 7 _ rfl
  · exact (c1_credential_owner_and_active.2.2.1 dbForeignKey 5 7
      ⟨5, 7, 1, "gpt-4o", none⟩ rfl rfl).1
  · exact (c1_credential_owner_and_active.2.2.2 dbOwnedInactive 5 7
      ⟨5, 7, 1, "gpt-4o", none⟩ ⟨1, 7, "openai", "main", some "enc", false⟩
      rfl rfl rfl).2

/-- Modelled from the spec: `LLMService.get_available_key` is called by
`gateway.chat_completions` (gateway.py line 95) but is not defined in
the repository sources; the spec describes credential selection as:
given (provider, owning principal), select one active, matching
credential, and fail when none exists.  The trailing argument mirrors
the dummy conversation id `-1` the call site passes. -/
def get_available_key (db : DB) (provider : String) (user_id : Int)
    (_dummy_id : Int) : Option APIKey :=
  db.api_keys.find? (fun k => k.provider == provider && k.user_id == user_id && k.is_active)

/-- Credential selection of `gateway.chat_completions` (gateway.py lines
79-107): provider resolution, then `get_available_key`; a missing key
raises HTTP 429 before any adapter is constructed (an `.ok` result is
exactly the path reaching `AdapterFactory.create_adapter_from_db`). -/
def gateway_upstream_key (db : DB) (model : String) (gateway_user_id : Int) :
    Except HTTPException APIKey :=
  let provider := resolveProvider model
  match get_available_key db provider gateway_user_id (-1) with
  | none => .error { status_code := 429
                     detail := "No available upstream capacity for provider " ++ provider }
  | some k => .ok k

/-- C3: when no active credential of the resolved provider exists for
the gateway key owner, `/chat/completions` fails with HTTP 429 and no
upstream call is attempted. -/
theorem c3_no_capacity_429 :
    ∀ (db : DB) (model : String) (uid : Int),
    (∀ k ∈ db.api_keys,
      ¬(k.provider = resolveProvider model ∧ k.user_id = uid ∧ k.is_active = true)) →
    gateway_upstream_key db model uid =
      .error { status_code := 429
               detail := "No available upstream capacity for provider " ++
                 resolveProvider model } := by
  intro db model uid h
  have hnone : get_available_key db (resolveProvider model) uid (-1) = none := by
    unfold get_available_key
    rw [List.find?_eq_none]
    intro k hk
    simp only [Bool.and_eq_true, beq_iff_eq]
    rintro ⟨⟨hp, hu⟩, ha⟩
    exact h k hk ⟨hp, hu, ha⟩
  simp only [gateway_upstream_key, hnone]

/-- C3 witness: with no credentials at all, a request for a gpt model
fails with the 429 no-capacity error. -/
theorem c3_no_capacity_429_witness :
    gateway_upstream_key { api_keys := [], conversations := [] } "gpt-4o" 7 =
      .error { status_code := 429
               detail := "No available upstream capacity for provider " ++
                 resolveProvider "gpt-4o" } := by
  exact c3_no_capacity_429 { api_keys := [], conversations := [] } "gpt-4o" 7
    (by intro k hk; simp at hk)

/-- Accumulation of the streamed fragments in `LLMService.stream_chat`
(llm_service.py lines 263-275): `full_response` starts empty and each
yielded chunk is appended. -/
def stream_full_response (chunks : List String) : String :=
  chunks.foldl (fun acc c => acc ++ c) ""

/-- The assistant `Message` persisted by `LLMService.stream_chat`
(llm_service.py lines 277-283): only conversation id, role and content
are supplied; the token-count and cost columns stay NULL. -/
def stream_assistant_message (conversation_id : Int) (chunks : List String) :
    Message :=
  { conversation_id := conversation_id
    role := "assistant"
    content := stream_full_response chunks
    prompt_tokens := none
    completion_tokens := none
    total_tokens := none
    cost := none
    metadata := none }

/-- C8: after a completed stream the persisted assistant message content
is the concatenation of all yielded fragments in emission order, and
its token-count and cost fields are null. -/
theorem c8_stream_persists_concatenation :
    ∀ (cid : Int) (chunks : List String),
    (stream_assistant_message cid chunks).content = String.join chunks ∧
    (stream_assistant_message cid chunks).role = "assistant" ∧
    (stream_assistant_message cid chunks).prompt_tokens = none ∧
    (stream_assistant_message cid chunks).completion_tokens = none ∧
    (stream_assistant_message cid chunks).total_tokens = none ∧
    (stream_assistant_message cid chunks).cost = none := by
  intro cid chunks
  exact ⟨rfl, rfl, rfl, rfl, rfl, rfl⟩

/-- SSE framing of `chat.stream_message.generate` (chat.py lines
187-198): `data: <payload>` followed by a blank line. -/
def sse_event (payload : String) : String :=
  "data: " ++ payload ++ "\n\n"

/-- The event sequence produced by `chat.stream_message.generate`
(chat.py lines 187-198): each fragment framed as an SSE data line, then
either the `[DONE]` marker or, when the upstream iteration raised, an
`[ERROR] <message>` line produced by the same framing. -/
def generate_events (chunks : List String) (upstream_error : Option String) :
    List String :=
  match upstream_error with
  | none => chunks.map sse_event ++ [sse_event "[DONE]"]
  | some e => chunks.map sse_event ++ [sse_event ("[ERROR] " ++ e)]

/-- C7 evidence: a stream aborted by an upstream failure emits exactly
the same events as the prefix of a normal stream whose second content
fragment happens to be the text `[ERROR] boom`; the error is framed
in band, byte-identical to a content fragment, and no structural error
signal exists. -/
theorem c7_error_frame_is_inband :
    generate_events ["hello"] (some "boom") =
      (generate_events ["hello", "[ERROR] boom"] none).take 2 ∧
    sse_event ("[ERROR] " ++ "boom") = sse_event "[ERROR] boom" := by
  exact ⟨rfl, rfl⟩

namespace ClaudeAdapter

/-- The loop body of `ClaudeAdapter._convert_messages` (claude_adapter.py
lines 37-55): system messages are pulled out into `system_message`
(later ones overwrite earlier ones), every other message is appended to
the outgoing array. -/
def convert_messages_loop (system_message : Option String)
    (chat_messages : List (String × String)) :
    List ChatMessage → Option String × List (String × String)
  | [] => (system_message, chat_messages)
  | msg :: rest =>
    if msg.role == "system" then
      convert_messages_loop (some msg.content) chat_messages rest
    else
      convert_messages_loop system_message (chat_messages ++ [(msg.role, msg.content)]) rest

/-- `ClaudeAdapter._convert_messages` (claude_adapter.py lines 37-55). -/
def convert_messages (messages : List ChatMessage) :
    Option String × List (String × String) :=
  convert_messages_loop none [] messages

/-- The keyword arguments `ClaudeAdapter.chat` passes to the upstream
client (claude_adapter.py lines 66-84). -/
structure Params where
  model : String
  messages : List (String × String)
  temperature : ℚ
  max_tokens : Nat
  system : Option String
deriving DecidableEq, Repr

/-- Upstream-call construction of `ClaudeAdapter.chat` (claude_adapter.py
lines 66-84): a missing `max_tokens` defaults to 4096 and the extracted
system message is attached only when Python finds it truthy (not `None`
and not the empty string). -/
def chat_params (messages : List ChatMessage) (model : String)
    (temperature : ℚ) (max_tokens : Option Nat) : Params :=
  let sc := convert_messages messages
  let mt := match max_tokens with
    | none => 4096
    | some n => n
  let base : Params :=
    { model := model, messages := sc.2, temperature := temperature,
      max_tokens := mt, system := none }
  match sc.1 with
  | some s => if s == "" then base else { base with system := some s }
  | none => base

end ClaudeAdapter

lemma claude_loop_append (xs ys : List ChatMessage) :
    ∀ (sys : Option String) (acc : List (String × String)),
    ClaudeAdapter.convert_messages_loop sys acc (xs ++ ys) =
      ClaudeAdapter.convert_messages_loop
        (ClaudeAdapter.convert_messages_loop sys acc xs).1
        (ClaudeAdapter.convert_messages_loop sys acc xs).2 ys := by
  induction xs with
  | nil => intro sys acc; rfl
  | cons m rest ih =>
    intro sys acc
    cases hm : (m.role == "system") with
    | true => simp [ClaudeAdapter.convert_messages_loop, hm, ih]
    | false => simp [ClaudeAdapter.convert_messages_loop, hm, ih]

lemma claude_loop_no_system (msgs : List ChatMessage)
    (h : ∀ m ∈ msgs, m.role ≠ "system") :
    ∀ (sys : Option String) (acc : List (String × String)),
    ClaudeAdapter.convert_messages_loop sys acc msgs =
      (sys, acc ++ msgs.map (fun m => (m.role, m.content))) := by
  induction msgs with
  | nil => intro sys acc; simp [ClaudeAdapter.convert_messages_loop]
  | cons m rest ih =>
    intro sys acc
    have hm : (m.role == "system") = false :=
      beq_eq_false_iff_ne.mpr (h m (List.mem_cons_self m rest))
    have ihr := ih (fun x hx => h x (List.mem_cons_of_mem _ hx))
    simp [ClaudeAdapter.convert_messages_loop, hm, ihr]

lemma claude_convert_one_system (pre post : List ChatMessage) (c : String)
    (hpre : ∀ m ∈ pre, m.role ≠ "system")
    (hpost : ∀ m ∈ post, m.role ≠ "system") :
    ClaudeAdapter.convert_messages (pre ++ { role := "system", content := c } :: post) =
      (some c, pre.map (fun m => (m.role, m.content)) ++
        post.map (fun m => (m.role, m.content))) := by
  unfold ClaudeAdapter.convert_messages
  rw [claude_loop_append pre ({ role := "system", content := c } :: post) none []]
  rw [claude_loop_no_system pre hpre none []]
  simp only [ClaudeAdapter.convert_messages_loop]
  rw [claude_loop_no_system post hpost]
  simp

/-- C4 counterexample: a request whose single system message has empty
content (with `max_tokens` omitted) produces upstream parameters with
NO separate system field at all — Python `if system_message:` treats
the empty string as falsy — refuting the claim that the system content
is always passed through as a separate top-level field. -/
theorem c4_counterexample_empty_system :
    (ClaudeAdapter.chat_params
        [{ role := "system", content := "" }, { role := "user", content := "Hi" }]
        "claude-3-5-sonnet-20241022" 1 none).system = none ∧
    (ClaudeAdapter.chat_params
        [{ role := "system", content := "" }, { role := "user", content := "Hi" }]
        "claude-3-5-sonnet-20241022" 1 none).max_tokens = 4096 := by
  exact ⟨rfl, rfl⟩

/-- C4 (amended): for a message list containing exactly one system
message whose content is non-empty and an omitted `max_tokens`, the
Claude upstream call carries `max_tokens = 4096`, a separate top-level
system field equal to that content, and no `role = "system"` entry in
its message array.  (The only amendment: an empty system content is
dropped by Python truthiness and yields no system field.) -/
theorem c4_claude_system_separated :
    ∀ (pre post : List ChatMessage) (c model : String) (temp : ℚ),
    (∀ m ∈ pre, m.role ≠ "system") →
    (∀ m ∈ post, m.role ≠ "system") →
    c ≠ "" →
    (ClaudeAdapter.chat_params (pre ++ { role := "system", content := c } :: post)
        model temp none).max_tokens = 4096 ∧
    (ClaudeAdapter.chat_params (pre ++ { role := "system", content := c } :: post)
        model temp none).system = some c ∧
    ∀ e ∈ (ClaudeAdapter.chat_params (pre ++ { role := "system", content := c } :: post)
        model temp none).messages, e.1 ≠ "system" := by
  intro pre post c model temp hpre hpost hc
  have hconv := claude_convert_one_system pre post c hpre hpost
  have hcb : (c == "") = false := beq_eq_false_iff_ne.mpr hc
  refine ⟨?_, ?_, ?_⟩
  · simp [ClaudeAdapter.chat_params, hconv, hcb]
  · simp [ClaudeAdapter.chat_params, hconv, hcb]
  · intro e he
    simp only [ClaudeAdapter.chat_params, hconv, hcb, Bool.false_eq_true, if_false,
      List.mem_append, List.mem_map] at he
    rcases he with ⟨a, ha, hae⟩ | ⟨a, ha, hae⟩
    · rw [← hae]; exact hpre a ha
    · rw [← hae]; exact hpost a ha

/-- C4 witness: the spec scenario with system content "You are terse". -/
theorem c4_claude_system_separated_witness :
    (ClaudeAdapter.chat_params
        [{ role := "system", content := "You are terse" }, { role := "user", content := "Hi" }]
        "claude-3-5-sonnet-20241022" 1 none).max_tokens = 4096 ∧
    (ClaudeAdapter.chat_params
        [{ role := "system", content := "You are terse" }, { role := "user", content := "Hi" }]
        "claude-3-5-sonnet-20241022" 1 none).system = some "You are terse" := by
  have h := c4_claude_system_separated [] [{ role := "user", content := "Hi" }]
    "You are terse" "claude-3-5-sonnet-20241022" 1
    (by intro m hm; simp at hm)
    (by intro m hm; rw [List.mem_singleton] at hm; subst hm; decide)
    (by decide)
  exact ⟨h.1, h.2.1⟩

namespace GeminiAdapter

/-- `GeminiAdapter._convert_messages` (gemini_adapter.py lines 37-55):
system messages are skipped with `continue`, the `assistant` role is
rewritten to `model` and every other role to `user`; the content goes
into a one-element `parts` list. -/
def convert_messages : List ChatMessage → List (String × List String)
  | [] => []
  | msg :: rest =>
    if msg.role == "system" then
      convert_messages rest
    else
      (if msg.role == "assistant" then "model" else "user", [msg.content]) ::
        convert_messages rest

end GeminiAdapter

/-- C5: the Gemini translation has length input-length minus the number
of system messages (system messages are dropped entirely), and every
assistant message appears in the translation with role `model`. -/
theorem c5_gemini_translation :
    ∀ msgs : List ChatMessage,
    (GeminiAdapter.convert_messages msgs).length =
      msgs.length - (msgs.filter (fun m => m.role == "system")).length ∧
    ∀ m ∈ msgs, m.role = "assistant" →
      ("model", [m.content]) ∈ GeminiAdapter.convert_messages msgs := by
  intro msgs
  induction msgs with
  | nil => exact ⟨rfl, by intro m hm; simp at hm⟩
  | cons m rest ih =>
    cases hm : (m.role == "system") with
    | true =>
      constructor
      · simp only [GeminiAdapter.convert_messages, hm, if_true, List.filter,
          List.length_cons]
        rw [Nat.succ_sub_succ]
        exact ih.1
      · intro x hx hrole
        rcases List.mem_cons.mp hx with hx | hx
        · exfalso
          have : m.role = "system" := beq_iff_eq.mp hm
          rw [← hx, hrole] at this
          exact absurd this (by decide)
        · simp only [GeminiAdapter.convert_messages, hm, if_true]
          exact ih.2 x hx hrole
    | false =>
      constructor
      · have hle := List.length_filter_le (fun m => m.role == "system") rest
        simp only [GeminiAdapter.convert_messages, hm, Bool.false_eq_true, if_false,
          List.filter, List.length_cons]
        rw [ih.1]
        omega
      · intro x hx hrole
        rcases List.mem_cons.mp hx with hx | hx
        · have hma : (m.role == "assistant") = true := by
            rw [hx] at hrole; exact beq_iff_eq.mpr hrole
          simp only [GeminiAdapter.convert_messages, hm, Bool.false_eq_true, if_false,
            hma, if_true]
          rw [hx]
          exact List.mem_cons_self _ _
        · simp only [GeminiAdapter.convert_messages, hm, Bool.false_eq_true, if_false]
          exact List.mem_cons_of_mem _ (ih.2 x hx hrole)

/-- Concrete message list used by the C5 witness. -/
def geminiDemoMsgs : List ChatMessage :=
  [{ role := "system", content := "s" },
   { role := "user", content := "u" },
   { role := "assistant", content := "a" }]

/-- C5 witness: on a three-message list with one system message the
translation has two entries and carries the assistant turn as `model`. -/
theorem c5_gemini_translation_witness :
    (GeminiAdapter.convert_messages geminiDemoMsgs).length = 2 ∧
    ("model", ["a"]) ∈ GeminiAdapter.convert_messages geminiDemoMsgs := by
  constructor
  · exact ((c5_gemini_translation geminiDemoMsgs).1).trans (by decide)
  · exact (c5_gemini_translation geminiDemoMsgs).2
      { role := "assistant", content := "a" } (by decide) rfl

namespace OpenAIAdapter

/-- `OpenAIAdapter.PRICING` (openai_adapter.py lines 18-24): USD per
million tokens, in declaration order. -/
def PRICING : List (String × ℚ × ℚ) :=
  [("gpt-4", 30.0, 60.0),
   ("gpt-4-turbo", 10.0, 30.0),
   ("gpt-4o", 5.0, 15.0),
   ("gpt-4o-mini", 0.15, 0.6),
   ("gpt-3.5-turbo", 0.5, 1.5)]

/-- The base-model search loop of `OpenAIAdapter._calculate_cost`
(openai_adapter.py lines 150-155): the FIRST declared key that is a
prefix of the model name wins (the loop breaks at the first match);
when none matches, `base_model` stays the model name itself. -/
def base_model_of (model : String) : String :=
  match PRICING.find? (fun p => pyStartsWith model p.1) with
  | some p => p.1
  | none => model

/-- `OpenAIAdapter._calculate_cost` (openai_adapter.py lines 143-164). -/
def calculate_cost (model : String) (prompt_tokens completion_tokens : Nat) : ℚ :=
  match PRICING.find? (fun p => p.1 == base_model_of model) with
  | none => 0
  | some p =>
      (prompt_tokens : ℚ) / 1000000 * p.2.1 + (completion_tokens : ℚ) / 1000000 * p.2.2

end OpenAIAdapter

namespace ClaudeAdapter

/-- `ClaudeAdapter.PRICING` (claude_adapter.py lines 18-23). -/
def PRICING : List (String × ℚ × ℚ) :=
  [("claude-3-opus", 15.0, 75.0),
   ("claude-3-sonnet", 3.0, 15.0),
   ("claude-3-haiku", 0.25, 1.25),
   ("claude-3-5-sonnet", 3.0, 15.0)]

/-- The base-model search loop of `ClaudeAdapter._calculate_cost`
(claude_adapter.py lines 180-185): the first declared key occurring as
a SUBSTRING of the model name, else none. -/
def base_model_of (model : String) : Option String :=
  (PRICING.find? (fun p => pyContains model p.1)).map (fun p => p.1)

/-- `ClaudeAdapter._calculate_cost` (claude_adapter.py lines 173-194). -/
def calculate_cost (model : String) (prompt_tokens completion_tokens : Nat) : ℚ :=
  match base_model_of model with
  | none => 0
  | some base =>
    match PRICING.find? (fun p => p.1 == base) with
    | none => 0
    | some p =>
        (prompt_tokens : ℚ) / 1000000 * p.2.1 + (completion_tokens : ℚ) / 1000000 * p.2.2

end ClaudeAdapter

namespace GeminiAdapter

/-- `GeminiAdapter.PRICING` (gemini_adapter.py lines 18-23). -/
def PRICING : List (String × ℚ × ℚ) :=
  [("gemini-pro", 0.5, 1.5),
   ("gemini-pro-vision", 0.5, 1.5),
   ("gemini-1.5-pro", 3.5, 10.5),
   ("gemini-1.5-flash", 0.35, 1.05)]

/-- The base-model search loop of `GeminiAdapter._calculate_cost`
(gemini_adapter.py lines 187-191): first declared key occurring as a
substring of the model name, else none. -/
def base_model_of (model : String) : Option String :=
  (PRICING.find? (fun p => pyContains model p.1)).map (fun p => p.1)

/-- `GeminiAdapter._calculate_cost` (gemini_adapter.py lines 180-200). -/
def calculate_cost (model : String) (prompt_tokens completion_tokens : Nat) : ℚ :=
  match base_model_of model with
  | none => 0
  | some base =>
    match PRICING.find? (fun p => p.1 == base) with
    | none => 0
    | some p =>
        (prompt_tokens : ℚ) / 1000000 * p.2.1 + (completion_tokens : ℚ) / 1000000 * p.2.2

end GeminiAdapter

namespace OllamaAdapter

/-- `OllamaAdapter._calculate_cost` (ollama_adapter.py lines 184-191):
local models always cost zero. -/
def calculate_cost (_model : String) (_prompt_tokens _completion_tokens : Nat) : ℚ := 0

end OllamaAdapter

namespace CustomAdapter

/-- `CustomAdapter._calculate_cost` (custom_adapter.py lines 164-184):
when the adapter config carries a `pricing` entry its optional `input`
and `output` rates are used with default 0; otherwise cost is 0. -/
def calculate_cost (pricing : Option (Option ℚ × Option ℚ)) (_model : String)
    (prompt_tokens completion_tokens : Nat) : ℚ :=
  match pricing with
  | some pr =>
      (prompt_tokens : ℚ) / 1000000 * pr.1.getD 0 +
        (completion_tokens : ℚ) / 1000000 * pr.2.getD 0
  | none => 0

end CustomAdapter

/-- C2 evidence (code bug): the pricing loop takes the FIRST declared
prefix match, so `gpt-4` shadows the dedicated `gpt-4o-mini` row: the
cost of one million prompt tokens on `gpt-4o-mini` is 30 USD, not the
0.15 USD its own (unreachable) pricing row declares.  The no-match case
does return 0. -/
theorem c2_first_match_shadows_gpt4o_mini :
    OpenAIAdapter.base_model_of "gpt-4o-mini" = "gpt-4" ∧
    OpenAIAdapter.calculate_cost "gpt-4o-mini" 1000000 0 = 30 ∧
    ("gpt-4o-mini", (0.15 : ℚ), (0.6 : ℚ)) ∈ OpenAIAdapter.PRICING ∧
    OpenAIAdapter.calculate_cost "unknown-model" 100 100 = 0 := by
  refine ⟨rfl, ?_, ?_, rfl⟩
  · have h : OpenAIAdapter.calculate_cost "gpt-4o-mini" 1000000 0 =
        ((1000000 : Nat) : ℚ) / 1000000 * 30.0 + ((0 : Nat) : ℚ) / 1000000 * 60.0 := rfl
    rw [h]
    norm_num
  · simp [OpenAIAdapter.PRICING]

/-- Input/output rates a table-based cost function resolves for a model
(0,0 when the lookup fails): proof-side view of the cost functions. -/
def openai_rates (model : String) : ℚ × ℚ :=
  match OpenAIAdapter.PRICING.find? (fun p => p.1 == OpenAIAdapter.base_model_of model) with
  | none => (0, 0)
  | some p => p.2

/-- Rates resolved by the Claude cost function. -/
def claude_rates (model : String) : ℚ × ℚ :=
  match ClaudeAdapter.base_model_of model with
  | none => (0, 0)
  | some base =>
    match ClaudeAdapter.PRICING.find? (fun p => p.1 == base) with
    | none => (0, 0)
    | some p => p.2

/-- Rates resolved by the Gemini cost function. -/
def gemini_rates (model : String) : ℚ × ℚ :=
  match GeminiAdapter.base_model_of model with
  | none => (0, 0)
  | some base =>
    match GeminiAdapter.PRICING.find? (fun p => p.1 == base) with
    | none => (0, 0)
    | some p => p.2

/-- Rates resolved by the custom-endpoint cost function. -/
def custom_rates (pricing : Option (Option ℚ × Option ℚ)) : ℚ × ℚ :=
  match pricing with
  | none => (0, 0)
  | some pr => (pr.1.getD 0, pr.2.getD 0)

/-- Non-negative configured pricing for the custom adapter. -/
def custom_pricing_nonneg : Option (Option ℚ × Option ℚ) → Prop
  | none => True
  | some pr => 0 ≤ pr.1.getD 0 ∧ 0 ≤ pr.2.getD 0

lemma linear_cost_nonneg (p q : ℚ) (hp : 0 ≤ p) (hq : 0 ≤ q) (a b : Nat) :
    0 ≤ (a : ℚ) / 1000000 * p + (b : ℚ) / 1000000 * q := by
  have ha : (0 : ℚ) ≤ (a : ℚ) / 1000000 := by positivity
  have hb : (0 : ℚ) ≤ (b : ℚ) / 1000000 := by positivity
  exact add_nonneg (mul_nonneg ha hp) (mul_nonneg hb hq)

lemma linear_cost_mono (p q : ℚ) (hp : 0 ≤ p) (hq : 0 ≤ q) (a a2 b b2 : Nat)
    (ha : a ≤ a2) (hb : b ≤ b2) :
    (a : ℚ) / 1000000 * p + (b : ℚ) / 1000000 * q ≤
      (a2 : ℚ) / 1000000 * p + (b2 : ℚ) / 1000000 * q := by
  have ha2 : (a : ℚ) ≤ (a2 : ℚ) := by exact_mod_cast ha
  have hb2 : (b : ℚ) ≤ (b2 : ℚ) := by exact_mod_cast hb
  gcongr

lemma openai_cost_eq (model : String) (a b : Nat) :
    OpenAIAdapter.calculate_cost model a b =
      (a : ℚ) / 1000000 * (openai_rates model).1 +
        (b : ℚ) / 1000000 * (openai_rates model).2 := by
  unfold OpenAIAdapter.calculate_cost openai_rates
  rcases hf : OpenAIAdapter.PRICING.find?
      (fun p => p.1 == OpenAIAdapter.base_model_of model) with _ | p
  · simp [hf]
  · simp [hf]

lemma claude_cost_eq (model : String) (a b : Nat) :
    ClaudeAdapter.calculate_cost model a b =
      (a : ℚ) / 1000000 * (claude_rates model).1 +
        (b : ℚ) / 1000000 * (claude_rates model).2 := by
  unfold ClaudeAdapter.calculate_cost claude_rates
  rcases hb : ClaudeAdapter.base_model_of model with _ | base
  · simp [hb]
  · rcases hf : ClaudeAdapter.PRICING.find? (fun p => p.1 == base) with _ | p
    · simp [hb, hf]
    · simp [hb, hf]

lemma gemini_cost_eq (model : String) (a b : Nat) :
    GeminiAdapter.calculate_cost model a b =
      (a : ℚ) / 1000000 * (gemini_rates model).1 +
        (b : ℚ) / 1000000 * (gemini_rates model).2 := by
  unfold GeminiAdapter.calculate_cost gemini_rates
  rcases hb : GeminiAdapter.base_model_of model with _ | base
  · simp [hb]
  · rcases hf : GeminiAdapter.PRICING.find? (fun p => p.1 == base) with _ | p
    · simp [hb, hf]
    · simp [hb, hf]

lemma custom_cost_eq (pricing : Option (Option ℚ × Option ℚ)) (model : String)
    (a b : Nat) :
    CustomAdapter.calculate_cost pricing model a b =
      (a : ℚ) / 1000000 * (custom_rates pricing).1 +
        (b : ℚ) / 1000000 * (custom_rates pricing).2 := by
  unfold CustomAdapter.calculate_cost custom_rates
  rcases pricing with _ | pr
  · simp
  · simp

lemma openai_pricing_entries_nonneg :
    ∀ x ∈ OpenAIAdapter.PRICING, 0 ≤ x.2.1 ∧ 0 ≤ x.2.2 := by
  intro x hx
  simp only [OpenAIAdapter.PRICING, List.mem_cons, List.not_mem_nil, or_false] at hx
  rcases hx with h | h | h | h | h <;> subst h <;> constructor <;> norm_num

lemma claude_pricing_entries_nonneg :
    ∀ x ∈ ClaudeAdapter.PRICING, 0 ≤ x.2.1 ∧ 0 ≤ x.2.2 := by
  intro x hx
  simp only [ClaudeAdapter.PRICING, List.mem_cons, List.not_mem_nil, or_false] at hx
  rcases hx with h | h | h | h <;> subst h <;> constructor <;> norm_num

lemma gemini_pricing_entries_nonneg :
    ∀ x ∈ GeminiAdapter.PRICING, 0 ≤ x.2.1 ∧ 0 ≤ x.2.2 := by
  intro x hx
  simp only [GeminiAdapter.PRICING, List.mem_cons, List.not_mem_nil, or_false] at hx
  rcases hx with h | h | h | h <;> subst h <;> constructor <;> norm_num

lemma openai_rates_nonneg (model : String) :
    0 ≤ (openai_rates model).1 ∧ 0 ≤ (openai_rates model).2 := by
  unfold openai_rates
  rcases hf : OpenAIAdapter.PRICING.find?
      (fun p => p.1 == OpenAIAdapter.base_model_of model) with _ | p
  · simp [hf]
  · simp only [hf]
    exact openai_pricing_entries_nonneg p (List.mem_of_find?_eq_some hf)

lemma claude_rates_nonneg (model : String) :
    0 ≤ (claude_rates model).1 ∧ 0 ≤ (claude_rates model).2 := by
  unfold claude_rates
  rcases hb : ClaudeAdapter.base_model_of model with _ | base
  · simp [hb]
  · rcases hf : ClaudeAdapter.PRICING.find? (fun p => p.1 == base) with _ | p
    · simp [hb, hf]
    · simp only [hb, hf]
      exact claude_pricing_entries_nonneg p (List.mem_of_find?_eq_some hf)

lemma gemini_rates_nonneg (model : String) :
    0 ≤ (gemini_rates model).1 ∧ 0 ≤ (gemini_rates model).2 := by
  unfold gemini_rates
  rcases hb : GeminiAdapter.base_model_of model with _ | base
  · simp [hb]
  · rcases hf : GeminiAdapter.PRICING.find? (fun p => p.1 == base) with _ | p
    · simp [hb, hf]
    · simp only [hb, hf]
      exact gemini_pricing_entries_nonneg p (List.mem_of_find?_eq_some hf)

lemma custom_rates_nonneg (pricing : Option (Option ℚ × Option ℚ))
    (h : custom_pricing_nonneg pricing) :
    0 ≤ (custom_rates pricing).1 ∧ 0 ≤ (custom_rates pricing).2 := by
  unfold custom_rates
  rcases pricing with _ | pr
  · simp
  · exact h

/-- C9 counterexample: the custom adapter is a supported provider and
its configured pricing override is not validated, so a negative
configured input rate makes `estimateCost` negative (and decreasing in
prompt tokens), refuting the unconditional claim. -/
theorem c9_counterexample_negative_custom_pricing :
    CustomAdapter.calculate_cost (some (some (-1), some 0)) "my-model" 1000000 0 < 0 := by
  rw [custom_cost_eq]
  norm_num [custom_rates]

/-- C9 (amended): `estimateCost` is non-negative and monotonically
non-decreasing in prompt and completion tokens for every adapter with a
static pricing table (OpenAI, Claude, Gemini) and for the zero-cost
Ollama adapter; for the custom adapter the same holds whenever its
configured pricing override is non-negative (the only amendment the
counterexample forces). -/
theorem c9_cost_nonneg_monotone :
    (∀ (model : String) (a b : Nat), 0 ≤ OpenAIAdapter.calculate_cost model a b) ∧
    (∀ (model : String) (a a2 b : Nat), a ≤ a2 →
      OpenAIAdapter.calculate_cost model a b ≤ OpenAIAdapter.calculate_cost model a2 b) ∧
    (∀ (model : String) (a b b2 : Nat), b ≤ b2 →
      OpenAIAdapter.calculate_cost model a b ≤ OpenAIAdapter.calculate_cost model a b2) ∧
    (∀ (model : String) (a b : Nat), 0 ≤ ClaudeAdapter.calculate_cost model a b) ∧
    (∀ (model : String) (a a2 b : Nat), a ≤ a2 →
      ClaudeAdapter.calculate_cost model a b ≤ ClaudeAdapter.calculate_cost model a2 b) ∧
    (∀ (model : String) (a b b2 : Nat), b ≤ b2 →
      ClaudeAdapter.calculate_cost model a b ≤ ClaudeAdapter.calculate_cost model a b2) ∧
    (∀ (model : String) (a b : Nat), 0 ≤ GeminiAdapter.calculate_cost model a b) ∧
    (∀ (model : String) (a a2 b : Nat), a ≤ a2 →
      GeminiAdapter.calculate_cost model a b ≤ GeminiAdapter.calculate_cost model a2 b) ∧
    (∀ (model : String) (a b b2 : Nat), b ≤ b2 →
      GeminiAdapter.calculate_cost model a b ≤ GeminiAdapter.calculate_cost model a b2) ∧
    (∀ (model : String) (a b : Nat), 0 ≤ OllamaAdapter.calculate_cost model a b) ∧
    (∀ (model : String) (a a2 b : Nat), a ≤ a2 →
      OllamaAdapter.calculate_cost model a b ≤ OllamaAdapter.calculate_cost model a2 b) ∧
    (∀ (model : String) (a b b2 : Nat), b ≤ b2 →
      OllamaAdapter.calculate_cost model a b ≤ OllamaAdapter.calculate_cost model a b2) ∧
    (∀ (pricing : Option (Option ℚ × Option ℚ)) (model : String) (a b : Nat),
      custom_pricing_nonneg pricing →
      0 ≤ CustomAdapter.calculate_cost pricing model a b) ∧
    (∀ (pricing : Option (Option ℚ × Option ℚ)) (model : String) (a a2 b : Nat),
      custom_pricing_nonneg pricing → a ≤ a2 →
      CustomAdapter.calculate_cost pricing model a b ≤
        CustomAdapter.calculate_cost pricing model a2 b) ∧
    (∀ (pricing : Option (Option ℚ × Option ℚ)) (model : String) (a b b2 : Nat),
      custom_pricing_nonneg pricing → b ≤ b2 →
      CustomAdapter.calculate_cost pricing model a b ≤
        CustomAdapter.calculate_cost pricing model a b2) := by
  refine ⟨?_, ?_, ?_, ?_, ?_, ?_, ?_, ?_, ?_, ?_, ?_, ?_, ?_, ?_, ?_⟩
  · intro model a b
    rw [openai_cost_eq]
    exact linear_cost_nonneg _ _ (openai_rates_nonneg model).1 (openai_rates_nonneg model).2 a b
  · intro model a a2 b h
    rw [openai_cost_eq, openai_cost_eq]
    exact linear_cost_mono _ _ (openai_rates_nonneg model).1 (openai_rates_nonneg model).2
      a a2 b b h le_rfl
  · intro model a b b2 h
    rw [openai_cost_eq, openai_cost_eq]
    exact linear_cost_mono _ _ (openai_rates_nonneg model).1 (openai_rates_nonneg model).2
      a a b b2 le_rfl h
  · intro model a b
    rw [claude_cost_eq]
    exact linear_cost_nonneg _ _ (claude_rates_nonneg model).1 (claude_rates_nonneg model).2 a b
  · intro model a a2 b h
    rw [claude_cost_eq, claude_cost_eq]
    exact linear_cost_mono _ _ (claude_rates_nonneg model).1 (claude_rates_nonneg model).2
      a a2 b b h le_rfl
  · intro model a b b2 h
    rw [claude_cost_eq, claude_cost_eq]
    exact linear_cost_mono _ _ (claude_rates_nonneg model).1 (claude_rates_nonneg model).2
      a a b b2 le_rfl h
  · intro model a b
    rw [gemini_cost_eq]
    exact linear_cost_nonneg _ _ (gemini_rates_nonneg model).1 (gemini_rates_nonneg model).2 a b
  · intro model a a2 b h
    rw [gemini_cost_eq, gemini_cost_eq]
    exact linear_cost_mono _ _ (gemini_rates_nonneg model).1 (gemini_rates_nonneg model).2
      a a2 b b h le_rfl
  · intro model a b b2 h
    rw [gemini_cost_eq, gemini_cost_eq]
    exact linear_cost_mono _ _ (gemini_rates_nonneg model).1 (gemini_rates_nonneg model).2
      a a b b2 le_rfl h
  · intro model a b
    exact le_refl 0
  · intro model a a2 b h
    exact le_refl 0
  · intro model a b b2 h
    exact le_refl 0
  · intro pricing model a b hp
    rw [custom_cost_eq]
    exact linear_cost_nonneg _ _ (custom_rates_nonneg pricing hp).1
      (custom_rates_nonneg pricing hp).2 a b
  · intro pricing model a a2 b hp h
    rw [custom_cost_eq, custom_cost_eq]
    exact linear_cost_mono _ _ (custom_rates_nonneg pricing hp).1
      (custom_rates_nonneg pricing hp).2 a a2 b b h le_rfl
  · intro pricing model a b b2 hp h
    rw [custom_cost_eq, custom_cost_eq]
    exact linear_cost_mono _ _ (custom_rates_nonneg pricing hp).1
      (custom_rates_nonneg pricing hp).2 a a b b2 le_rfl h

/-- C9 witness: non-negativity and both monotonicity directions at
concrete inputs, including the hypothesis-guarded custom case. -/
theorem c9_cost_nonneg_monotone_witness :
    (0 ≤ OpenAIAdapter.calculate_cost "gpt-4" 1 2 ∧
      OpenAIAdapter.calculate_cost "gpt-4" 1 2 ≤ OpenAIAdapter.calculate_cost "gpt-4" 5 2 ∧
      OpenAIAdapter.calculate_cost "gpt-4" 1 2 ≤ OpenAIAdapter.calculate_cost "gpt-4" 1 7) ∧
    (0 ≤ ClaudeAdapter.calculate_cost "claude-3-opus-20240229" 1 2) ∧
    (0 ≤ GeminiAdapter.calculate_cost "gemini-1.5-flash" 1 2) ∧
    (0 ≤ OllamaAdapter.calculate_cost "llama3" 1 2) ∧
    (0 ≤ CustomAdapter.calculate_cost (some (some 1, some 2)) "m" 3 4 ∧
      CustomAdapter.calculate_cost (some (some 1, some 2)) "m" 3 4 ≤
        CustomAdapter.calculate_cost (some (some 1, some 2)) "m" 3 9) := by
  have hp : custom_pricing_nonneg (some (some 1, some 2)) := by
    constructor <;> norm_num
  refine ⟨⟨?_, ?_, ?_⟩, ?_, ?_, ?_, ?_, ?_⟩
  · exact c9_cost_nonneg_monotone.1 "gpt-4" 1 2
  · exact c9_cost_nonneg_monotone.2.1 "gpt-4" 1 5 2 (by norm_num)
  · exact c9_cost_nonneg_monotone.2.2.1 "gpt-4" 1 2 7 (by norm_num)
  · exact c9_cost_nonneg_monotone.2.2.2.1 "claude-3-opus-20240229" 1 2
  · exact c9_cost_nonneg_monotone.2.2.2.2.2.2.1 "gemini-1.5-flash" 1 2
  · exact c9_cost_nonneg_monotone.2.2.2.2.2.2.2.2.2.1 "llama3" 1 2
  · exact c9_cost_nonneg_monotone.2.2.2.2.2.2.2.2.2.2.2.2.1 (some (some 1, some 2)) "m" 3 4 hp
  · exact c9_cost_nonneg_monotone.2.2.2.2.2.2.2.2.2.2.2.2.2.2 (some (some 1, some 2)) "m" 3 4 9 hp (by norm_num)
